import Mathlib

/-!
Verification of the pilosa server-command wiring (package `server`,
`cmd/pilosa/main.go` and `shardwidth/24.go`).

Go strings are modelled as lists of characters (`GoStr`); the helpers
`goContains`, `goHasPref`, `goTrimPref` model `strings.Contains`,
`strings.HasPrefix` and `strings.TrimPrefix` on that representation.
Fallible Go functions return `Except GoStr` values; the outcome of
`Command.Run` is a `RunOutcome` (ok, returned error, or runtime panic).
-/

/-- Go strings, modelled as lists of characters. -/
abbrev GoStr := List Char

/-- Models `strings.Contains s sub`: some tail of `s` starts with `sub`. -/
def goContains (s sub : GoStr) : Bool :=
  s.tails.any fun t => sub.isPrefixOf t

/-- Models `strings.HasPrefix s pre`. -/
def goHasPref (s pre : GoStr) : Bool :=
  pre.isPrefixOf s

/-- Models `strings.TrimPrefix s pre`. -/
def goTrimPref (s pre : GoStr) : GoStr :=
  if goHasPref s pre then s.drop pre.length else s

/-- The one-character string made of a colon. -/
def colonStr : GoStr := [':']

/-- The three-character scheme separator, as in the Go literal used by
`normalizeHost`. -/
def schemeSep : GoStr := [':', '/', '/']

/-- The seven-character scheme marker checked by `normalizeHost`. -/
def httpPref : GoStr := ['h', 't', 't', 'p', ':', '/', '/']

/-- Models the Go expression tilde followed by `filepath.Separator`
(the separator is the slash on the platforms this build targets). -/
def tildeSep : GoStr := ['~', '/']

namespace shardwidth

/-- The shard-width exponent of the default build (`shardwidth/24.go`). -/
def Exponent : Nat := 24

end shardwidth

/-- Modelled from the spec: the shard mapper itself is not under `src/`
(only the exponent constant is); the spec defines
`shardOf(columnAddress) = columnAddress >> E`. -/
def shardOf (columnAddress : Nat) : Nat :=
  columnAddress >>> shardwidth.Exponent

/-- The error message built by `normalizeHost` for a host with a scheme
other than the supported one. The Go original additionally wraps the host
in single quotation marks; those two characters are elided here. -/
def invalidHostMsg (host : GoStr) : GoStr :=
  "invalid scheme or host: ".toList ++ host
    ++ ". use the format [http://]<host>:<port>".toList

/-- Models `normalizeHost` from the server package: a host with no colon
gets a colon appended; a host with a scheme separator must carry the
supported scheme, which is stripped; otherwise the host passes through. -/
def normalizeHost (host : GoStr) : Except GoStr GoStr :=
  if !(goContains host colonStr) then
    Except.ok (host ++ colonStr)
  else if goContains host schemeSep then
    if goHasPref host httpPref then
      Except.ok (host.drop 7)
    else
      Except.error (invalidHostMsg host)
  else
    Except.ok host

/-- A cluster node; identity is its host:port string. -/
structure Node where
  Host : GoStr
deriving DecidableEq

/-- The three node-set variants. The gossip variant records the arguments
of `pilosa.NewGossipNodeSet(name, host, port, seed)` plus whether a
broadcaster has been attached to it (`AttachBroadcaster`). The network
behaviour of the variants is outside this package. -/
inductive NodeSet where
  | httpNS (joined : List Node)
  | gossipNS (name : GoStr) (bindHost : GoStr) (port : Int) (seed : GoStr)
      (attached : Bool)
  | staticNS
deriving DecidableEq

/-- The three broadcaster variants. The Go constructors for the first two
take the server as a back-reference; that cyclic reference carries no data
used by this package and is omitted. -/
inductive Broadcaster where
  | httpB
  | gossipB
  | nop
deriving DecidableEq

/-- The cluster object of the pilosa package, as far as this package
reads or writes it: replica count, node list and the installed node set. -/
structure Cluster where
  ReplicaN : Int
  Nodes : List Node
  NodeSet : Option NodeSet
deriving DecidableEq

/-- Modelled from the spec: `pilosa.NewCluster` is not under `src/`; the
spec has the cluster built once at startup purely from configuration, so
the fresh cluster is empty with zero replica count and no node set. -/
def NewCluster : Cluster :=
  { ReplicaN := 0, Nodes := [], NodeSet := none }

/-- Where the server log goes after `Command.Run` sets it up. -/
inductive LogOut where
  | stderr
  | file (path : String)
deriving DecidableEq

/-- The server object, as far as `Command.Run` writes it. -/
structure Server where
  LogOutput : Option LogOut
  IndexPath : GoStr
  IndexStatsSet : Bool
  Host : GoStr
  Broadcaster : Option Broadcaster
  Cluster : Option Cluster
  AntiEntropyInterval : Int
deriving DecidableEq

/-- Gossip section of the cluster configuration. -/
structure GossipConfig where
  Port : Int
  Seed : GoStr
deriving DecidableEq

/-- Cluster section of the configuration. -/
structure ClusterConfig where
  ReplicaN : Int
  Nodes : List GoStr
  BroadcasterType : String
  Gossip : GossipConfig
deriving DecidableEq

/-- Anti-entropy section of the configuration. -/
structure AntiEntropyConfig where
  Interval : Int
deriving DecidableEq

/-- The configuration fields read by `Command.Run` and the factories. -/
structure Config where
  DataDir : GoStr
  LogPath : String
  Host : GoStr
  Cluster : ClusterConfig
  AntiEntropy : AntiEntropyConfig
deriving DecidableEq

/-- Modelled from the spec: `pilosa.DefaultHost`, a constant of the pilosa
package not under `src/`; the claims reference it only symbolically. -/
def DefaultHost : GoStr := "localhost".toList

/-- Modelled from the spec: `pilosa.DefaultGossipPort`, a string constant
of the pilosa package not under `src/`; the claims reference it only
symbolically. -/
def DefaultGossipPort : String := "14000"

/-- The numeric default gossip port, `strconv.Atoi(pilosa.DefaultGossipPort)`.
The Go code panics when the constant fails to parse; the constant does
parse, so the fallback value of this model is never produced. -/
def defaultGossipPortNum : Int :=
  (DefaultGossipPort.toNat?.getD 0 : Nat)

/-- Models the host portion of `net.SplitHostPort(c.Host)` as used by
`PilosaCluster`: on success the part before the final colon, and on any
failure the Go code falls back to the whole host string (Go standard
library behaviour, IPv6 bracket handling abstracted away). -/
def gossipBindHost (host : GoStr) : GoStr :=
  if goContains host colonStr then
    (host.reverse.dropWhile (fun ch => ch ≠ ':')).drop 1 |>.reverse
  else
    host

/-- Models `PilosaBroadcaster`: the factory keyed on the configured
`Cluster.BroadcasterType`. The Go switch has no default case and its named
result starts as the nil interface, so an unrecognized variant yields no
broadcaster. -/
def PilosaBroadcaster (c : Config) : Option Broadcaster :=
  if c.Cluster.BroadcasterType = "http" then some Broadcaster.httpB
  else if c.Cluster.BroadcasterType = "gossip" then some Broadcaster.gossipB
  else if c.Cluster.BroadcasterType = "static" then some Broadcaster.nop
  else none

/-- Models `PilosaCluster`: builds a cluster from the configuration, one
node per configured hostport, then installs a node set keyed on the
configured `Cluster.BroadcasterType`; the default case of the Go switch
installs a static node set. -/
def PilosaCluster (c : Config) : Cluster :=
  let cluster := NewCluster
  let cluster := { cluster with ReplicaN := c.Cluster.ReplicaN }
  let cluster :=
    { cluster with
        Nodes := cluster.Nodes ++ c.Cluster.Nodes.map fun hostport => ({ Host := hostport } : Node) }
  if c.Cluster.BroadcasterType = "http" then
    { cluster with NodeSet := some (NodeSet.httpNS cluster.Nodes) }
  else if c.Cluster.BroadcasterType = "gossip" then
    let gossipPort := if c.Cluster.Gossip.Port ≠ 0 then c.Cluster.Gossip.Port
      else defaultGossipPortNum
    let gossipSeed := if c.Cluster.Gossip.Seed ≠ [] then c.Cluster.Gossip.Seed
      else DefaultHost
    { cluster with
        NodeSet := some (NodeSet.gossipNS c.Host (gossipBindHost c.Host)
          gossipPort gossipSeed false) }
  else if c.Cluster.BroadcasterType = "static" then
    { cluster with NodeSet := some NodeSet.staticNS }
  else
    { cluster with NodeSet := some NodeSet.staticNS }

/-- Models `AssociateBroadcaster`: only the gossip case does anything; it
runs two type assertions (on the cluster node set and on the server
broadcaster) and attaches the broadcaster to the gossip node set. A failed
assertion or a nil cluster is a runtime panic, modelled as `none`. -/
def AssociateBroadcaster (s : Server) (c : Config) : Option Server :=
  if c.Cluster.BroadcasterType = "gossip" then
    match s.Cluster, s.Broadcaster with
    | some cl, some Broadcaster.gossipB =>
      match cl.NodeSet with
      | some (NodeSet.gossipNS nm bh p sd _) =>
        some { s with
                Cluster := some { cl with NodeSet := some (NodeSet.gossipNS nm bh p sd true) } }
      | _ => none
    | _, _ => none
  else
    some s

/-- Environment of one `Command.Run` call: the HOME variable, the result
of `os.OpenFile` on the configured log path, and the result of
`Server.Open` — the three external effects the wiring consults. -/
structure Env where
  home : GoStr
  openFileResult : Except GoStr Unit
  serverOpenResult : Except GoStr Unit

/-- Outcome of `Command.Run`: normal return, returned error, or runtime
panic (a failed type assertion inside `AssociateBroadcaster`). -/
inductive RunOutcome where
  | ok
  | err (msg : GoStr)
  | panicked
deriving DecidableEq

/-- Result triple of the `Command.Run` model: outcome, final
configuration (Run rewrites `Config.DataDir`), final server state. -/
abbrev RunRes := RunOutcome × Config × Server

/-- The error message `Command.Run` returns when the data directory is
tilde-relative and HOME is empty. -/
def dataDirErrMsg : GoStr :=
  "data directory not specified and no home dir available".toList

/-- The text `Command.Run` puts in front of an error from `Server.Open`. -/
def serverOpenPre : GoStr := "server.Open: ".toList

/-- Models `filepath.Join` as used for the data directory (path cleaning
of the Go standard library abstracted to a plain separator join; no claim
depends on the joined value). -/
def joinPath (a b : GoStr) : GoStr := a ++ ['/'] ++ b

/-- Final stage of `Command.Run`: the `Server.Open` call, whose error is
wrapped with the `server.Open:` text. -/
def runFromOpen (c : Config) (env : Env) (s : Server) : RunRes :=
  match env.serverOpenResult with
  | Except.error e => (RunOutcome.err (serverOpenPre ++ e), c, s)
  | Except.ok _ => (RunOutcome.ok, c, s)

/-- Cluster-wiring stage of `Command.Run`: normalize the host (the Go
multiple assignment writes the empty host even on error), build the
broadcaster and the cluster, run `AssociateBroadcaster`, set the
anti-entropy interval, then open the server. -/
def runFromWire (c : Config) (env : Env) (s : Server) : RunRes :=
  match normalizeHost c.Host with
  | Except.error e => (RunOutcome.err e, c, { s with Host := [] })
  | Except.ok h =>
    let s := { s with
                Host := h,
                Broadcaster := PilosaBroadcaster c,
                Cluster := some (PilosaCluster c) }
    match AssociateBroadcaster s c with
    | none => (RunOutcome.panicked, c, s)
    | some s2 => runFromOpen c env { s2 with AntiEntropyInterval := c.AntiEntropy.Interval }

/-- Index-configuration stage of `Command.Run`: set the index path to the
(possibly rewritten) data directory and install the stats client. -/
def runFromIndex (c : Config) (env : Env) (s : Server) : RunRes :=
  runFromWire c env { s with IndexPath := c.DataDir, IndexStatsSet := true }

/-- Log-setup stage of `Command.Run`: an empty log path sends the log to
standard error; otherwise the log file is opened and an open failure is
returned as the error of Run. -/
def runFromLog (c : Config) (env : Env) (s : Server) : RunRes :=
  if c.LogPath = "" then
    runFromIndex c env { s with LogOutput := some LogOut.stderr }
  else
    match env.openFileResult with
    | Except.error e => (RunOutcome.err e, c, s)
    | Except.ok _ => runFromIndex c env { s with LogOutput := some (LogOut.file c.LogPath) }

/-- Models `Command.Run`: resolve a tilde-relative data directory against
HOME (failing when HOME is empty), then run the remaining stages. -/
def run (c : Config) (env : Env) (s : Server) : RunRes :=
  if goHasPref c.DataDir tildeSep then
    if env.home = [] then
      (RunOutcome.err dataDirErrMsg, c, s)
    else
      runFromLog
        { c with DataDir := joinPath env.home (goTrimPref c.DataDir tildeSep) } env s
  else
    runFromLog c env s

/-- Models `main` (src/cmd/pilosa/main.go) composed with the spec-modelled
command layer: `cmd.NewRootCommand`/`Execute` are not under `src/`; per the
spec, startup-wiring errors propagate up out of Execute, and main prints
the error and exits with status 1. A normal return exits with status 0; a
Go panic terminates the process with the runtime's status 2. -/
def mainExitCode (r : RunOutcome) : Nat :=
  match r with
  | RunOutcome.ok => 0
  | RunOutcome.err _ => 1
  | RunOutcome.panicked => 2

/-- Concrete configuration with an unrecognized broadcaster variant. -/
def bogusCfg : Config :=
  { DataDir := "/data".toList,
    LogPath := "",
    Host := "localhost:10101".toList,
    Cluster :=
      { ReplicaN := 2,
        Nodes := ["localhost:10101".toList],
        BroadcasterType := "bogus",
        Gossip := { Port := 0, Seed := [] } },
    AntiEntropy := { Interval := 0 } }

/-- Concrete gossip-variant configuration with explicit port and seed. -/
def gossipCfg : Config :=
  { DataDir := "/data".toList,
    LogPath := "",
    Host := "node0:10101".toList,
    Cluster :=
      { ReplicaN := 2,
        Nodes := ["node0:10101".toList, "node1:10101".toList],
        BroadcasterType := "gossip",
        Gossip := { Port := 15000, Seed := "node0:15000".toList } },
    AntiEntropy := { Interval := 0 } }

/-- Concrete static-variant configuration. -/
def staticCfg : Config :=
  { DataDir := "/data".toList,
    LogPath := "",
    Host := "node0:10101".toList,
    Cluster :=
      { ReplicaN := 2,
        Nodes := ["node0:10101".toList, "node1:10101".toList, "node2:10101".toList],
        BroadcasterType := "static",
        Gossip := { Port := 0, Seed := [] } },
    AntiEntropy := { Interval := 0 } }

/-- Concrete http-variant configuration. -/
def httpCfg : Config :=
  { staticCfg with Cluster := { staticCfg.Cluster with BroadcasterType := "http" } }

/-- Concrete configuration whose host carries an unsupported scheme. -/
def badHostCfg : Config :=
  { staticCfg with Host := "ftp://x:1".toList }

/-- Concrete configuration with a tilde-relative data directory. -/
def tildeCfg : Config :=
  { staticCfg with DataDir := "~/pilosa".toList }

/-- Benign environment: HOME set, log file opens, server opens. -/
def okEnv : Env :=
  { home := "/home/u".toList,
    openFileResult := Except.ok (),
    serverOpenResult := Except.ok () }

/-- Environment with an empty HOME variable. -/
def noHomeEnv : Env :=
  { okEnv with home := [] }

/-- Server state before `Command.Run` touches it. -/
def emptyServer : Server :=
  { LogOutput := none,
    IndexPath := [],
    IndexStatsSet := false,
    Host := [],
    Broadcaster := none,
    Cluster := none,
    AntiEntropyInterval := 0 }

theorem goContains_iff (s sub : GoStr) : goContains s sub = true ↔ sub <:+: s := by
  simp only [goContains, List.any_eq_true, List.mem_tails, List.isPrefixOf_iff_prefix]
  rw [List.infix_iff_prefix_suffix]
  constructor
  · rintro ⟨t, ht, hp⟩
    exact ⟨t, hp, ht⟩
  · rintro ⟨t, hp, ht⟩
    exact ⟨t, ht, hp⟩

theorem goHasPref_iff (s pre : GoStr) : goHasPref s pre = true ↔ pre <+: s := by
  simp only [goHasPref, List.isPrefixOf_iff_prefix]

theorem contains_colon_of_http (host : GoStr) (h : goHasPref host httpPref = true) :
    goContains host colonStr = true := by
  rw [goContains_iff]
  have h2 : httpPref <:+: host := ((goHasPref_iff _ _).1 h).isInfix
  exact List.IsInfix.trans ⟨['h', 't', 't', 'p'], ['/', '/'], rfl⟩ h2

theorem contains_scheme_of_http (host : GoStr) (h : goHasPref host httpPref = true) :
    goContains host schemeSep = true := by
  rw [goContains_iff]
  have h2 : httpPref <:+: host := ((goHasPref_iff _ _).1 h).isInfix
  exact List.IsInfix.trans ⟨['h', 't', 't', 'p'], [], rfl⟩ h2

theorem contains_colon_of_scheme (host : GoStr) (h : goContains host schemeSep = true) :
    goContains host colonStr = true := by
  rw [goContains_iff] at h ⊢
  exact List.IsInfix.trans ⟨[], ['/', '/'], rfl⟩ h

theorem run_eq_log_stage (c : Config) (env : Env) (s : Server)
    (h : goHasPref c.DataDir tildeSep = false ∨ env.home ≠ []) :
    ∃ d : GoStr, run c env s = runFromLog { c with DataDir := d } env s := by
  rcases h with h | h
  · exact ⟨c.DataDir, by simp [run, h]⟩
  · by_cases hp : goHasPref c.DataDir tildeSep = true
    · exact ⟨joinPath env.home (goTrimPref c.DataDir tildeSep), by simp [run, hp, h]⟩
    · have hp2 : goHasPref c.DataDir tildeSep = false := by simpa using hp
      exact ⟨c.DataDir, by simp [run, hp2]⟩

theorem log_stage_eq_index_stage (c : Config) (env : Env) (s : Server)
    (h : c.LogPath = "" ∨ env.openFileResult = Except.ok ()) :
    ∃ lo : LogOut, runFromLog c env s = runFromIndex c env { s with LogOutput := some lo } := by
  by_cases hl : c.LogPath = ""
  · exact ⟨LogOut.stderr, by simp [runFromLog, hl]⟩
  · rcases h with h | h
    · exact absurd h hl
    · exact ⟨LogOut.file c.LogPath, by simp [runFromLog, hl, h]⟩

theorem wire_stage_host_err (c : Config) (env : Env) (s : Server) (e : GoStr)
    (h : normalizeHost c.Host = Except.error e) :
    runFromWire c env s = (RunOutcome.err e, c, { s with Host := [] }) := by
  simp [runFromWire, h]

theorem associate_after_wiring (c : Config) (hh : GoStr) (s : Server) :
    (AssociateBroadcaster
        { s with Host := hh, Broadcaster := PilosaBroadcaster c,
                 Cluster := some (PilosaCluster c) } c).isSome = true := by
  by_cases hg : c.Cluster.BroadcasterType = "gossip"
  · have hb : PilosaBroadcaster c = some Broadcaster.gossipB := by
      simp [PilosaBroadcaster, hg]
    have hn : (PilosaCluster c).NodeSet =
        some (NodeSet.gossipNS c.Host (gossipBindHost c.Host)
          (if c.Cluster.Gossip.Port ≠ 0 then c.Cluster.Gossip.Port else defaultGossipPortNum)
          (if c.Cluster.Gossip.Seed ≠ [] then c.Cluster.Gossip.Seed else DefaultHost)
          false) := by
      simp [PilosaCluster, hg]
    simp [AssociateBroadcaster, hg, hb, hn]
  · simp [AssociateBroadcaster, hg]

theorem wire_stage_open_err (c : Config) (env : Env) (s : Server) (h2 e : GoStr)
    (hn : normalizeHost c.Host = Except.ok h2)
    (ho : env.serverOpenResult = Except.error e) :
    (runFromWire c env s).1 = RunOutcome.err (serverOpenPre ++ e) := by
  obtain ⟨s2, hs2⟩ := Option.isSome_iff_exists.mp (associate_after_wiring c h2 s)
  simp [runFromWire, hn, hs2, runFromOpen, ho]

theorem wire_stage_open_ok (c : Config) (env : Env) (s : Server) (h2 : GoStr)
    (hn : normalizeHost c.Host = Except.ok h2)
    (ho : env.serverOpenResult = Except.ok ()) :
    (runFromWire c env s).1 = RunOutcome.ok := by
  obtain ⟨s2, hs2⟩ := Option.isSome_iff_exists.mp (associate_after_wiring c h2 s)
  simp [runFromWire, hn, hs2, runFromOpen, ho]

/-- C2: the default build's shard-width exponent is 24 and the shard of a
column address is the address shifted right by the exponent; addresses
with equal value of address >>> 24 share a shard, address 16777216 lies in
shard 1 and address 16777215 in shard 0. -/
theorem shard_width_default_24 :
    shardwidth.Exponent = 24 ∧
    (∀ a : Nat, shardOf a = a >>> 24) ∧
    shardOf 16777216 = 1 ∧ shardOf 16777215 = 0 ∧
    (∀ a b : Nat, a >>> 24 = b >>> 24 → shardOf a = shardOf b) :=
  ⟨rfl, fun _ => rfl, by decide, by decide, fun _ _ h => h⟩

/-- Witness for C2: two addresses inside shard 1 agree at bit 24 and
above, and the theorem maps them to the same shard. -/
theorem shard_width_default_24_witness :
    (16777217 : Nat) >>> 24 = (33554431 : Nat) >>> 24 ∧
    shardOf 16777217 = shardOf 33554431 :=
  ⟨by decide, shard_width_default_24.2.2.2.2 16777217 33554431 (by decide)⟩

/-- C8: `normalizeHost` is total and case-splits: a host with no colon
gets a colon appended with no error; a host with a colon but no scheme
separator is returned unchanged with no error; a host starting with the
supported scheme has its first seven characters removed with no error. -/
theorem normalizeHost_cases :
    (∀ host : GoStr, goContains host colonStr = false →
      normalizeHost host = Except.ok (host ++ colonStr)) ∧
    (∀ host : GoStr, goContains host colonStr = true →
      goContains host schemeSep = false →
      normalizeHost host = Except.ok host) ∧
    (∀ host : GoStr, goHasPref host httpPref = true →
      normalizeHost host = Except.ok (host.drop 7)) := by
  refine ⟨?_, ?_, ?_⟩
  · intro host h
    simp [normalizeHost, h]
  · intro host h1 h2
    simp [normalizeHost, h1, h2]
  · intro host hp
    simp [normalizeHost, contains_colon_of_http host hp,
      contains_scheme_of_http host hp, hp]

/-- Witness for C8: the three cases at concrete hosts. -/
theorem normalizeHost_cases_witness :
    (goContains "localhost".toList colonStr = false ∧
      normalizeHost "localhost".toList = Except.ok ("localhost".toList ++ colonStr)) ∧
    (goContains "node0:1".toList colonStr = true ∧
      goContains "node0:1".toList schemeSep = false ∧
      normalizeHost "node0:1".toList = Except.ok "node0:1".toList) ∧
    (goHasPref "http://x:9".toList httpPref = true ∧
      normalizeHost "http://x:9".toList = Except.ok ("http://x:9".toList.drop 7)) :=
  ⟨⟨by decide, normalizeHost_cases.1 "localhost".toList (by decide)⟩,
   ⟨by decide, by decide, normalizeHost_cases.2.1 "node0:1".toList (by decide) (by decide)⟩,
   ⟨by decide, normalizeHost_cases.2.2 "http://x:9".toList (by decide)⟩⟩

/-- C5: `PilosaCluster` copies the configured replica factor and makes one
node per configured hostport, with that hostport as its Host, in
configuration order. -/
theorem cluster_from_config (c : Config) :
    (PilosaCluster c).ReplicaN = c.Cluster.ReplicaN ∧
    (PilosaCluster c).Nodes =
      c.Cluster.Nodes.map fun hostport => ({ Host := hostport } : Node) := by
  unfold PilosaCluster NewCluster
  split_ifs <;> simp

/-- Witness for C5 at the concrete static configuration. -/
theorem cluster_from_config_witness :
    (PilosaCluster staticCfg).ReplicaN = staticCfg.Cluster.ReplicaN ∧
    (PilosaCluster staticCfg).Nodes =
      staticCfg.Cluster.Nodes.map fun hostport => ({ Host := hostport } : Node) :=
  cluster_from_config staticCfg

/-- C3: the factory keyed on the configured variant: for http an HTTP
broadcaster and an HTTP node set joined to the configured nodes, for
gossip a gossip broadcaster and a gossip node set, for static the nop
broadcaster and a static node set. -/
theorem variant_factory :
    (∀ c : Config, c.Cluster.BroadcasterType = "http" →
      PilosaBroadcaster c = some Broadcaster.httpB ∧
      (PilosaCluster c).NodeSet =
        some (NodeSet.httpNS
          (c.Cluster.Nodes.map fun hostport => ({ Host := hostport } : Node)))) ∧
    (∀ c : Config, c.Cluster.BroadcasterType = "gossip" →
      PilosaBroadcaster c = some Broadcaster.gossipB ∧
      ∃ nm bh sd : GoStr, ∃ p : Int,
        (PilosaCluster c).NodeSet = some (NodeSet.gossipNS nm bh p sd false)) ∧
    (∀ c : Config, c.Cluster.BroadcasterType = "static" →
      PilosaBroadcaster c = some Broadcaster.nop ∧
      (PilosaCluster c).NodeSet = some NodeSet.staticNS) := by
  refine ⟨?_, ?_, ?_⟩
  · intro c h
    constructor
    · simp [PilosaBroadcaster, h]
    · simp [PilosaCluster, NewCluster, h]
  · intro c h
    constructor
    · simp [PilosaBroadcaster, h]
    · exact ⟨c.Host, gossipBindHost c.Host,
        (if c.Cluster.Gossip.Seed ≠ [] then c.Cluster.Gossip.Seed else DefaultHost),
        (if c.Cluster.Gossip.Port ≠ 0 then c.Cluster.Gossip.Port else defaultGossipPortNum),
        by simp [PilosaCluster, h]⟩
  · intro c h
    constructor
    · simp [PilosaBroadcaster, h]
    · simp [PilosaCluster, h]

/-- Witness for C3: the three variants at concrete configurations. -/
theorem variant_factory_witness :
    (PilosaBroadcaster httpCfg = some Broadcaster.httpB ∧
      (PilosaCluster httpCfg).NodeSet =
        some (NodeSet.httpNS
          (httpCfg.Cluster.Nodes.map fun hostport => ({ Host := hostport } : Node)))) ∧
    (PilosaBroadcaster gossipCfg = some Broadcaster.gossipB ∧
      ∃ nm bh sd : GoStr, ∃ p : Int,
        (PilosaCluster gossipCfg).NodeSet = some (NodeSet.gossipNS nm bh p sd false)) ∧
    (PilosaBroadcaster staticCfg = some Broadcaster.nop ∧
      (PilosaCluster staticCfg).NodeSet = some NodeSet.staticNS) :=
  ⟨variant_factory.1 httpCfg rfl,
   variant_factory.2.1 gossipCfg rfl,
   variant_factory.2.2 staticCfg rfl⟩

/-- C10: with the gossip variant configured, the gossip node set gets the
configured gossip port when it is nonzero and otherwise the default
gossip port, and the configured seed when it is non-empty and otherwise
the default host. -/
theorem gossip_port_seed_defaults (c : Config)
    (h : c.Cluster.BroadcasterType = "gossip") :
    (PilosaCluster c).NodeSet =
      some (NodeSet.gossipNS c.Host (gossipBindHost c.Host)
        (if c.Cluster.Gossip.Port ≠ 0 then c.Cluster.Gossip.Port else defaultGossipPortNum)
        (if c.Cluster.Gossip.Seed ≠ [] then c.Cluster.Gossip.Seed else DefaultHost)
        false) := by
  simp [PilosaCluster, h]

/-- Witness for C10 at the concrete gossip configuration, whose nonzero
port and non-empty seed are both taken over the defaults. -/
theorem gossip_port_seed_defaults_witness :
    (PilosaCluster gossipCfg).NodeSet =
      some (NodeSet.gossipNS gossipCfg.Host (gossipBindHost gossipCfg.Host)
        (if gossipCfg.Cluster.Gossip.Port ≠ 0 then gossipCfg.Cluster.Gossip.Port
          else defaultGossipPortNum)
        (if gossipCfg.Cluster.Gossip.Seed ≠ [] then gossipCfg.Cluster.Gossip.Seed
          else DefaultHost)
        false) :=
  gossip_port_seed_defaults gossipCfg rfl

/-- C6: `AssociateBroadcaster` attaches the broadcaster to the gossip
node set exactly when the configured variant is gossip, and for every
other variant returns the server completely unchanged. -/
theorem associate_gossip_only :
    (∀ (s : Server) (c : Config), c.Cluster.BroadcasterType ≠ "gossip" →
      AssociateBroadcaster s c = some s) ∧
    (∀ (s : Server) (c : Config) (cl : Cluster) (nm bh sd : GoStr) (p : Int) (a : Bool),
      c.Cluster.BroadcasterType = "gossip" →
      s.Cluster = some cl →
      cl.NodeSet = some (NodeSet.gossipNS nm bh p sd a) →
      s.Broadcaster = some Broadcaster.gossipB →
      AssociateBroadcaster s c =
        some { s with
                Cluster := some { cl with
                  NodeSet := some (NodeSet.gossipNS nm bh p sd true) } }) := by
  constructor
  · intro s c h
    simp [AssociateBroadcaster, h]
  · intro s c cl nm bh sd p a hg hc hn hb
    simp [AssociateBroadcaster, hg, hc, hn, hb]

/-- Witness for C6: the no-op case at the static configuration and the
attaching case at the gossip configuration. -/
theorem associate_gossip_only_witness :
    AssociateBroadcaster emptyServer staticCfg = some emptyServer ∧
    AssociateBroadcaster
      { emptyServer with
          Broadcaster := some Broadcaster.gossipB,
          Cluster := some (PilosaCluster gossipCfg) } gossipCfg =
      some { emptyServer with
          Broadcaster := some Broadcaster.gossipB,
          Cluster := some { PilosaCluster gossipCfg with
            NodeSet := some (NodeSet.gossipNS "node0:10101".toList "node0".toList
              15000 "node0:15000".toList true) } } :=
  ⟨associate_gossip_only.1 emptyServer staticCfg (by decide),
   associate_gossip_only.2 _ gossipCfg (PilosaCluster gossipCfg)
     "node0:10101".toList "node0".toList "node0:15000".toList 15000 false
     rfl rfl (by decide) rfl⟩

/-- C4: a configured host with a scheme separator but without the
supported scheme makes `normalizeHost` fail, `Command.Run` returns that
error, and the server's broadcaster and cluster are left exactly as
before the call; a host starting with the supported scheme has the seven
scheme characters stripped without error. -/
theorem invalid_scheme_aborts_run :
    (∀ host : GoStr, goContains host schemeSep = true →
      goHasPref host httpPref = false →
      normalizeHost host = Except.error (invalidHostMsg host)) ∧
    (∀ host : GoStr, goHasPref host httpPref = true →
      normalizeHost host = Except.ok (host.drop 7)) ∧
    (∀ (c : Config) (env : Env) (s : Server),
      (goHasPref c.DataDir tildeSep = false ∨ env.home ≠ []) →
      (c.LogPath = "" ∨ env.openFileResult = Except.ok ()) →
      goContains c.Host schemeSep = true → goHasPref c.Host httpPref = false →
      (run c env s).1 = RunOutcome.err (invalidHostMsg c.Host) ∧
      (run c env s).2.2.Broadcaster = s.Broadcaster ∧
      (run c env s).2.2.Cluster = s.Cluster) := by
  have hhost : ∀ host : GoStr, goContains host schemeSep = true →
      goHasPref host httpPref = false →
      normalizeHost host = Except.error (invalidHostMsg host) := by
    intro host h1 h2
    simp [normalizeHost, contains_colon_of_scheme host h1, h1, h2]
  refine ⟨hhost, ?_, ?_⟩
  · intro host hp
    simp [normalizeHost, contains_colon_of_http host hp,
      contains_scheme_of_http host hp, hp]
  · intro c env s hreach hlog hsch hpref
    obtain ⟨d, hd⟩ := run_eq_log_stage c env s hreach
    obtain ⟨lo, hlo⟩ := log_stage_eq_index_stage { c with DataDir := d } env s hlog
    rw [hd, hlo]
    simp only [runFromIndex]
    rw [wire_stage_host_err { c with DataDir := d } env _ _ (hhost c.Host hsch hpref)]
    exact ⟨rfl, rfl, rfl⟩

/-- Witness for C4 at a concrete configuration with an unsupported
scheme in the host. -/
theorem invalid_scheme_aborts_run_witness :
    goContains badHostCfg.Host schemeSep = true ∧
    goHasPref badHostCfg.Host httpPref = false ∧
    (run badHostCfg okEnv emptyServer).1 = RunOutcome.err (invalidHostMsg badHostCfg.Host) ∧
    (run badHostCfg okEnv emptyServer).2.2.Broadcaster = emptyServer.Broadcaster ∧
    (run badHostCfg okEnv emptyServer).2.2.Cluster = emptyServer.Cluster := by
  refine ⟨by decide, by decide, ?_⟩
  exact invalid_scheme_aborts_run.2.2 badHostCfg okEnv emptyServer
    (Or.inl (by decide)) (Or.inl rfl) (by decide) (by decide)

/-- C9: with a tilde-relative data directory and an empty HOME,
`Command.Run` returns the no-home-directory error before any server
setup, leaving configuration and server exactly as given. -/
theorem run_home_missing (c : Config) (env : Env) (s : Server)
    (h1 : goHasPref c.DataDir tildeSep = true) (h2 : env.home = []) :
    run c env s = (RunOutcome.err dataDirErrMsg, c, s) := by
  simp [run, h1, h2]

/-- Witness for C9 at a concrete tilde-relative configuration. -/
theorem run_home_missing_witness :
    run tildeCfg noHomeEnv emptyServer =
      (RunOutcome.err dataDirErrMsg, tildeCfg, emptyServer) :=
  run_home_missing tildeCfg noHomeEnv emptyServer (by decide) rfl

/-- C7: each startup-wiring error of `Command.Run` — data-directory
resolution, log-file opening, host normalization, server open — is
returned to the caller with its message (the server-open error wrapped
with the `server.Open:` text), and main exits with status 1 on any error
returned. -/
theorem run_errors_propagate :
    (∀ (c : Config) (env : Env) (s : Server),
      goHasPref c.DataDir tildeSep = true → env.home = [] →
      (run c env s).1 = RunOutcome.err dataDirErrMsg) ∧
    (∀ (c : Config) (env : Env) (s : Server) (e : GoStr),
      (goHasPref c.DataDir tildeSep = false ∨ env.home ≠ []) →
      c.LogPath ≠ "" → env.openFileResult = Except.error e →
      (run c env s).1 = RunOutcome.err e) ∧
    (∀ (c : Config) (env : Env) (s : Server) (e : GoStr),
      (goHasPref c.DataDir tildeSep = false ∨ env.home ≠ []) →
      (c.LogPath = "" ∨ env.openFileResult = Except.ok ()) →
      normalizeHost c.Host = Except.error e →
      (run c env s).1 = RunOutcome.err e) ∧
    (∀ (c : Config) (env : Env) (s : Server) (hh e : GoStr),
      (goHasPref c.DataDir tildeSep = false ∨ env.home ≠ []) →
      (c.LogPath = "" ∨ env.openFileResult = Except.ok ()) →
      normalizeHost c.Host = Except.ok hh →
      env.serverOpenResult = Except.error e →
      (run c env s).1 = RunOutcome.err (serverOpenPre ++ e)) ∧
    (∀ e : GoStr, mainExitCode (RunOutcome.err e) = 1) := by
  refine ⟨?_, ?_, ?_, ?_, fun _ => rfl⟩
  · intro c env s h1 h2
    simp [run, h1, h2]
  · intro c env s e hreach hlp hof
    obtain ⟨d, hd⟩ := run_eq_log_stage c env s hreach
    rw [hd]
    simp [runFromLog, hlp, hof]
  · intro c env s e hreach hlog hn
    obtain ⟨d, hd⟩ := run_eq_log_stage c env s hreach
    obtain ⟨lo, hlo⟩ := log_stage_eq_index_stage { c with DataDir := d } env s hlog
    rw [hd, hlo]
    simp only [runFromIndex]
    rw [wire_stage_host_err { c with DataDir := d } env _ _ hn]
  · intro c env s hh e hreach hlog hn ho
    obtain ⟨d, hd⟩ := run_eq_log_stage c env s hreach
    obtain ⟨lo, hlo⟩ := log_stage_eq_index_stage { c with DataDir := d } env s hlog
    rw [hd, hlo]
    simp only [runFromIndex]
    exact wire_stage_open_err _ env _ hh e hn ho

/-- Witness for C7: the data-directory error at a concrete input, and
exit status 1 for it. -/
theorem run_errors_propagate_witness :
    (run tildeCfg noHomeEnv emptyServer).1 = RunOutcome.err dataDirErrMsg ∧
    mainExitCode (RunOutcome.err dataDirErrMsg) = 1 :=
  ⟨run_errors_propagate.1 tildeCfg noHomeEnv emptyServer (by decide) rfl,
   run_errors_propagate.2.2.2.2 dataDirErrMsg⟩

/-- C1 counterexample: with the unrecognized variant name `bogus`,
`PilosaBroadcaster` reports no error — it yields no broadcaster —
`PilosaCluster` still constructs a cluster (static node-set fallback),
and `Command.Run` completes without error: startup does not fail. -/
theorem unknown_variant_counterexample :
    PilosaBroadcaster bogusCfg = none ∧
    (PilosaCluster bogusCfg).NodeSet = some NodeSet.staticNS ∧
    (PilosaCluster bogusCfg).ReplicaN = 2 ∧
    (run bogusCfg okEnv emptyServer).1 = RunOutcome.ok :=
  ⟨rfl, rfl, rfl, rfl⟩

/-- C1 amended: a configuration whose BroadcasterType is none of static,
http or gossip is not a fatal startup error: `PilosaBroadcaster` returns
no broadcaster, `PilosaCluster` constructs the cluster with the static
node-set fallback, and `Command.Run` succeeds under an otherwise benign
environment. -/
theorem unknown_variant_defaults :
    (∀ c : Config, c.Cluster.BroadcasterType ≠ "http" →
      c.Cluster.BroadcasterType ≠ "gossip" → c.Cluster.BroadcasterType ≠ "static" →
      PilosaBroadcaster c = none ∧
      (PilosaCluster c).ReplicaN = c.Cluster.ReplicaN ∧
      (PilosaCluster c).NodeSet = some NodeSet.staticNS) ∧
    (∀ (c : Config) (env : Env) (s : Server),
      c.Cluster.BroadcasterType ≠ "gossip" →
      goHasPref c.DataDir tildeSep = false → c.LogPath = "" →
      (∃ hh : GoStr, normalizeHost c.Host = Except.ok hh) →
      env.serverOpenResult = Except.ok () →
      (run c env s).1 = RunOutcome.ok) := by
  constructor
  · intro c h1 h2 h3
    refine ⟨by simp [PilosaBroadcaster, h1, h2, h3], ?_, ?_⟩
    · simp [PilosaCluster, NewCluster, h1, h2, h3]
    · simp [PilosaCluster, h1, h2, h3]
  · intro c env s hg hd hl hn ho
    obtain ⟨hh, hn⟩ := hn
    obtain ⟨d, hdq⟩ := run_eq_log_stage c env s (Or.inl hd)
    obtain ⟨lo, hlo⟩ := log_stage_eq_index_stage { c with DataDir := d } env s (Or.inl hl)
    rw [hdq, hlo]
    simp only [runFromIndex]
    exact wire_stage_open_ok _ env _ hh hn ho

/-- Witness for the amended C1 at the concrete bogus-variant
configuration. -/
theorem unknown_variant_defaults_witness :
    (PilosaBroadcaster bogusCfg = none ∧
      (PilosaCluster bogusCfg).ReplicaN = bogusCfg.Cluster.ReplicaN ∧
      (PilosaCluster bogusCfg).NodeSet = some NodeSet.staticNS) ∧
    (run bogusCfg okEnv emptyServer).1 = RunOutcome.ok :=
  ⟨unknown_variant_defaults.1 bogusCfg (by decide) (by decide) (by decide),
   unknown_variant_defaults.2 bogusCfg okEnv emptyServer (by decide) (by decide) rfl
     ⟨"localhost:10101".toList, rfl⟩ rfl⟩
